import Mathlib

/-!
Shallow embedding of `kafka_connect_exporter.go` (package main of
wakeful/kafka_connect_exporter).

The collector (`Exporter.Collect`) performs a two-level fan-out over the
Kafka Connect REST API: it lists connector names (`GET {base}/connectors`),
then fetches `GET {base}/connectors/{name}/status` for each name, and emits
gauge samples on a channel.  We model one collection cycle as a pure
function from the upstream's behaviour (an `Upstream`) and the persistent
gauge state carried by the `Exporter` struct to the list of samples sent on
the channel plus the new gauge state.

Modelling conventions:
* `strings.ToLower` is modelled by `lowerString`, which lower-cases the
  ASCII letters of a string (the only case folding relevant to the states
  compared by the program).
* JSON numbers are modelled as integers (`Int`).  The program's only use of
  a JSON number is the task id, a `float64` that is rendered through
  `int(...)`, and every claim involves integral ids only.
* `encoding/json` unmarshalling is modelled faithfully for the target
  types of the program (`[]string`, and the `status` struct): JSON `null`
  leaves the destination unchanged, object keys are matched to struct json
  tags case-insensitively, unknown keys are ignored, missing keys keep the
  zero value, later duplicate keys overwrite earlier ones, and a type
  mismatch anywhere makes `json.Unmarshal` return an error.
* Gauge values are small non-negative integers (`Nat`); the program only
  ever stores 0, 1 and a list length in its gauges.
-/

/-- Go's `strings.ToLower`, restricted to ASCII case folding
(`Char.toLower` lower-cases exactly the ASCII letters A-Z). -/
def lowerString (s : String) : String := ⟨s.data.map Char.toLower⟩

/-- Go struct `connector` (kafka_connect_exporter.go lines 48-51):
the `connector` object inside a status response. -/
structure Connector where
  state : String
  workerId : String
deriving DecidableEq, Repr

/-- Go struct `task` (lines 53-57).  `Id` is a `float64` in Go; it is
modelled as an integer (see the module comment). -/
structure ConnectorTask where
  state : String
  id : Int
  workerId : String
deriving DecidableEq, Repr

/-- Go struct `status` (lines 42-46): the decoded per-connector status
response. -/
structure Status where
  name : String
  connector : Connector
  tasks : List ConnectorTask
deriving DecidableEq, Repr

/-- A parsed JSON document.  Numbers are modelled as integers (see the
module comment). -/
inductive Json where
  | null
  | bool (b : Bool)
  | num (n : Int)
  | str (s : String)
  | arr (elems : List Json)
  | obj (fields : List (String × Json))
deriving Repr

/-- Zero value of the Go `connector` struct. -/
def zeroConnector : Connector := { state := "", workerId := "" }

/-- Zero value of the Go `task` struct. -/
def zeroTask : ConnectorTask := { state := "", id := 0, workerId := "" }

/-- Zero value of the Go `status` struct. -/
def zeroStatus : Status := { name := "", connector := zeroConnector, tasks := [] }

/-- `json.Unmarshal` of one JSON value into a Go `string` field holding
`cur`: a JSON string overwrites the field, JSON `null` leaves it unchanged,
any other JSON value is a type error. -/
def unmarshalString (cur : String) : Json → Option String
  | Json.str s => some s
  | Json.null => some cur
  | _ => none

/-- `json.Unmarshal` of one JSON value into a Go `float64` field holding
`cur` (numbers modelled as integers): a JSON number overwrites the field,
JSON `null` leaves it unchanged, anything else is a type error. -/
def unmarshalNumber (cur : Int) : Json → Option Int
  | Json.num n => some n
  | Json.null => some cur
  | _ => none

/-- Fold the key/value pairs of a JSON object into a `connector` struct,
matching keys against the json tags `state` and `worker_id`
case-insensitively, ignoring unknown keys, and failing on the first type
mismatch — the observable behaviour of `encoding/json` on this struct. -/
def unmarshalConnectorFields (cur : Connector) : List (String × Json) → Option Connector
  | [] => some cur
  | (k, v) :: rest =>
    if lowerString k == "state" then
      match unmarshalString cur.state v with
      | none => none
      | some s => unmarshalConnectorFields { cur with state := s } rest
    else if lowerString k == "worker_id" then
      match unmarshalString cur.workerId v with
      | none => none
      | some w => unmarshalConnectorFields { cur with workerId := w } rest
    else
      unmarshalConnectorFields cur rest

/-- `json.Unmarshal` of a JSON value into a `connector` struct holding
`cur`: an object is folded field by field, `null` is a no-op, anything else
is a type error. -/
def unmarshalConnector (cur : Connector) : Json → Option Connector
  | Json.obj fields => unmarshalConnectorFields cur fields
  | Json.null => some cur
  | _ => none

/-- Fold the key/value pairs of a JSON object into a `task` struct (json
tags `state`, `id`, `worker_id`). -/
def unmarshalTaskFields (cur : ConnectorTask) : List (String × Json) → Option ConnectorTask
  | [] => some cur
  | (k, v) :: rest =>
    if lowerString k == "state" then
      match unmarshalString cur.state v with
      | none => none
      | some s => unmarshalTaskFields { cur with state := s } rest
    else if lowerString k == "id" then
      match unmarshalNumber cur.id v with
      | none => none
      | some n => unmarshalTaskFields { cur with id := n } rest
    else if lowerString k == "worker_id" then
      match unmarshalString cur.workerId v with
      | none => none
      | some w => unmarshalTaskFields { cur with workerId := w } rest
    else
      unmarshalTaskFields cur rest

/-- `json.Unmarshal` of a JSON value into a `task` struct holding `cur`. -/
def unmarshalTask (cur : ConnectorTask) : Json → Option ConnectorTask
  | Json.obj fields => unmarshalTaskFields cur fields
  | Json.null => some cur
  | _ => none

/-- Decode the elements of a JSON array into `task` values.  Each element
is decoded into a freshly grown zero-valued `task`, as `encoding/json`
does for slice elements. -/
def unmarshalTaskList : List Json → Option (List ConnectorTask)
  | [] => some []
  | e :: rest =>
    match unmarshalTask zeroTask e with
    | none => none
    | some t =>
      match unmarshalTaskList rest with
      | none => none
      | some ts => some (t :: ts)

/-- `json.Unmarshal` of a JSON value into the `[]task` field holding `cur`:
an array decodes element-wise, `null` is a no-op, anything else is a type
error. -/
def unmarshalTasks (cur : List ConnectorTask) : Json → Option (List ConnectorTask)
  | Json.arr elems => unmarshalTaskList elems
  | Json.null => some cur
  | _ => none

/-- Fold the key/value pairs of a JSON object into a `status` struct (json
tags `name`, `connector`, `tasks`). -/
def unmarshalStatusFields (cur : Status) : List (String × Json) → Option Status
  | [] => some cur
  | (k, v) :: rest =>
    if lowerString k == "name" then
      match unmarshalString cur.name v with
      | none => none
      | some s => unmarshalStatusFields { cur with name := s } rest
    else if lowerString k == "connector" then
      match unmarshalConnector cur.connector v with
      | none => none
      | some c => unmarshalStatusFields { cur with connector := c } rest
    else if lowerString k == "tasks" then
      match unmarshalTasks cur.tasks v with
      | none => none
      | some ts => unmarshalStatusFields { cur with tasks := ts } rest
    else
      unmarshalStatusFields cur rest

/-- `json.Unmarshal` of a JSON value into a `status` struct holding `cur`. -/
def unmarshalStatus (cur : Status) : Json → Option Status
  | Json.obj fields => unmarshalStatusFields cur fields
  | Json.null => some cur
  | _ => none

/-- `json.Unmarshal(connectorStatusOutput, &connectorStatus)` (line 126):
decode a per-connector status body into a zero-valued `status` struct. -/
def decodeStatus (j : Json) : Option Status := unmarshalStatus zeroStatus j

/-- Decode the elements of a JSON array into Go `string` slice elements:
strings decode to themselves, `null` leaves the grown zero element `""`,
anything else is a type error. -/
def unmarshalStringList : List Json → Option (List String)
  | [] => some []
  | Json.str s :: rest => (unmarshalStringList rest).map (fun l => s :: l)
  | Json.null :: rest => (unmarshalStringList rest).map (fun l => "" :: l)
  | _ => none

/-- `json.Unmarshal(output, &connectorsList)` (line 99): decode the
top-level listing body into `connectors` (`[]string`).  A JSON array
decodes element-wise; `null` leaves the nil slice (length 0); anything
else is a type error. -/
def decodeConnectors : Json → Option (List String)
  | Json.arr elems => unmarshalStringList elems
  | Json.null => some []
  | _ => none

/-- The body of one HTTP response as the collector observes it:
`ioutil.ReadAll` may fail, the bytes may not be valid JSON, or they parse
to a JSON document. -/
inductive Body where
  | unreadable
  | invalidJson
  | json (j : Json)

/-- Outcome of one `client.Get` call.  `closeOk` records whether
`response.Body.Close()` succeeds when (and if) it is called. -/
inductive Fetch where
  | noResponse
  | response (body : Body) (closeOk : Bool)

/-- The upstream Kafka Connect API as seen during one collection cycle:
the outcome of the listing request and of each per-connector status
request. -/
structure Upstream where
  listing : Fetch
  statusOf : String → Fetch

/-- One metric sample sent on the collect channel, identified by its
descriptor and labels. -/
inductive Sample where
  | up (value : Nat)
  | connectorsCount (value : Nat)
  | connectorRunning (value : Nat) (connector state worker : String)
  | taskState (value : Nat) (connector state workerId id : String)
deriving DecidableEq, Repr

/-- The persistent gauge values owned by the `Exporter` struct (lines
59-63); they survive across collection cycles. -/
structure Gauges where
  up : Nat
  connectorsCount : Nat
deriving DecidableEq, Repr

/-- The switch on `strings.ToLower(connectorTask.State)` (lines 143-154):
running ↦ 1, unassigned ↦ 2, paused ↦ 3, anything else ↦ 0. -/
def taskStateCode (state : String) : Nat :=
  match lowerString state with
  | "running" => 1
  | "unassigned" => 2
  | "paused" => 3
  | _ => 0

/-- Lines 131-134: `isRunning` is 1 when the lower-cased connector state
equals `"running"`, else 0. -/
def connectorRunningValue (state : String) : Nat :=
  if lowerString state == "running" then 1 else 0

/-- The samples emitted for one successfully decoded status (lines
131-160): one `connector_state_running` sample followed by one
`connector_tasks_state` sample per task, in task order. -/
def statusSamples (st : Status) : List Sample :=
  Sample.connectorRunning (connectorRunningValue st.connector.state)
      st.name (lowerString st.connector.state) st.connector.workerId
  :: st.tasks.map (fun t =>
      Sample.taskState (taskStateCode t.state) st.name (lowerString t.state)
        t.workerId (toString t.id))

/-- One iteration of the fan-out loop (lines 111-166) for one connector
name: a failed request, an unreadable body, or an undecodable body is
logged and skipped (`continue`), contributing no samples; a decoded status
contributes `statusSamples`.  The `closeOk` flag of the response does not
affect the samples: the per-connector `Body.Close` error (lines 162-165)
is only logged. -/
def collectOne (u : Upstream) (name : String) : List Sample :=
  match u.statusOf name with
  | Fetch.noResponse => []
  | Fetch.response Body.unreadable _ => []
  | Fetch.response Body.invalidJson _ => []
  | Fetch.response (Body.json j) _ =>
    match decodeStatus j with
    | none => []
    | some st => statusSamples st

/-- The whole fan-out loop over the decoded listing, in listing order. -/
def collectConnectors (u : Upstream) (names : List String) : List Sample :=
  names.flatMap (collectOne u)

/-- Whether the status fetch for `name` fails in the sense of lines
113-129: transport error, unreadable body, or a body that does not
unmarshal into the `status` struct. -/
def statusFetchFails (u : Upstream) (name : String) : Bool :=
  match u.statusOf name with
  | Fetch.noResponse => true
  | Fetch.response Body.unreadable _ => true
  | Fetch.response Body.invalidJson _ => true
  | Fetch.response (Body.json j) _ => (decodeStatus j).isNone

/-- Whether the top-level listing step fails in the sense of lines 76-103:
transport error, unreadable body, or a body that does not unmarshal into
`[]string`. -/
def listingFails (f : Fetch) : Bool :=
  match f with
  | Fetch.noResponse => true
  | Fetch.response Body.unreadable _ => true
  | Fetch.response Body.invalidJson _ => true
  | Fetch.response (Body.json j) _ => (decodeConnectors j).isNone

/-- The deferred close handler for the listing response (lines 82-89): it
runs at function exit whenever a listing response was obtained, and when
`Body.Close` fails it sends the `up` gauge (at its value at exit time) a
second time. -/
def listingCloseTail (f : Fetch) (upValue : Nat) : List Sample :=
  match f with
  | Fetch.response _ false => [Sample.up upValue]
  | _ => []

/-- `Exporter.Collect` (lines 69-169) as a function from the exporter's
gauge state and the upstream's behaviour to the samples sent on the
channel (in order) and the gauge state left behind.

The gauge `up` is set to 0 at entry (line 74).  A listing transport error
returns before the deferred close is registered, so exactly `up = 0` is
sent.  After a response is obtained, a read or decode failure sends
`up = 0` and returns; the registered deferred handler then closes the body
and, if closing fails, sends `up` (still 0) again.  On decode success the
gauges are set to 1 and the listing length, both are sent, the fan-out
loop runs, and the deferred handler may append a final `up` (now 1) sample
when closing the listing body fails. -/
def collect (g : Gauges) (u : Upstream) : List Sample × Gauges :=
  match u.listing with
  | Fetch.noResponse =>
    ([Sample.up 0], { g with up := 0 })
  | Fetch.response body closeOk =>
    match body with
    | Body.unreadable =>
      (Sample.up 0 :: (if closeOk then [] else [Sample.up 0]), { g with up := 0 })
    | Body.invalidJson =>
      (Sample.up 0 :: (if closeOk then [] else [Sample.up 0]), { g with up := 0 })
    | Body.json j =>
      match decodeConnectors j with
      | none =>
        (Sample.up 0 :: (if closeOk then [] else [Sample.up 0]), { g with up := 0 })
      | some names =>
        (Sample.up 1 :: Sample.connectorsCount names.length
          :: (collectConnectors u names ++ (if closeOk then [] else [Sample.up 1])),
         { up := 1, connectorsCount := names.length })

/-- The per-connector status decoded during the cycle for `name`, when the
fetch and decode succeed. -/
def decodedStatus (u : Upstream) (name : String) : Option Status :=
  match u.statusOf name with
  | Fetch.response (Body.json j) _ => decodeStatus j
  | _ => none

/-- Number of tasks contributed by connector `name` (0 when its status is
not decoded). -/
def taskCount (u : Upstream) (name : String) : Nat :=
  match decodedStatus u name with
  | some st => st.tasks.length
  | none => 0

/-- Total number of tasks across a listing. -/
def totalTaskCount (u : Upstream) (names : List String) : Nat :=
  (names.map (taskCount u)).sum

/-- Whether a `client.Get` call yielded a response body that the caller
owns (Go requires callers to close such bodies). -/
def bodyObtained : Fetch → Bool
  | Fetch.noResponse => false
  | Fetch.response _ _ => true

/-- Whether the fan-out loop reaches the `connectorStatusResponse.Body.Close()`
call at line 162 for this fetch outcome: only after both `ReadAll` and
`json.Unmarshal` succeed; the `continue` statements at lines 116, 122 and
128 leave the loop iteration without closing the body. -/
def statusBodyCloseCalled : Fetch → Bool
  | Fetch.response (Body.json j) _ => (decodeStatus j).isSome
  | _ => false

/-- Whether the listing response body is closed: the deferred handler
registered at line 82 closes it on every path once a response was
obtained. -/
def listingBodyCloseCalled (f : Fetch) : Bool := bodyObtained f

/-- Sample classifiers used to count gauge emissions. -/
def isUpSample : Sample → Bool
  | Sample.up _ => true
  | _ => false

def isCountSample : Sample → Bool
  | Sample.connectorsCount _ => true
  | _ => false

def isConnectorRunningSample : Sample → Bool
  | Sample.connectorRunning _ _ _ _ => true
  | _ => false

/-- The four metric descriptors appearing in the program: the two gauge
descriptors (lines 176-186) and the two const-metric descriptors (lines
30-37). -/
inductive MetricDesc where
  | up
  | connectorsCount
  | connectorRunning
  | tasksState
deriving DecidableEq, Repr

/-- `prometheus.Gauge.Describe` sends the gauge's single descriptor. -/
def gaugeDescribe (d : MetricDesc) : List MetricDesc := [d]

/-- `Exporter.Describe` (lines 65-67): it calls `e.up.Describe(ch)` and
nothing else, although the exporter also owns `connectorsCount`. -/
def exporterDescribe : List MetricDesc := gaugeDescribe MetricDesc.up

/-- The `supportedSchema` map (lines 191-194): lookups of `http` and
`https` yield true, every other key misses the map and yields false. -/
def supportedSchema (scheme : String) : Bool :=
  scheme == "http" || scheme == "https"

/-- How `main` (lines 196-226) terminates its startup sequence. -/
inductive StartupOutcome where
  | exitVersion
  | exitConfigError
  | serve (uri : String)
deriving DecidableEq, Repr

/-- The startup decision sequence of `main` (lines 196-226), with
`url.Parse` abstracted by its outcome: `none` when parsing the configured
URI fails, otherwise `some` of the parsed scheme.  A parse failure or an
unsupported scheme calls `os.Exit(1)` before any server is started; only
the `serve` outcome registers the exporter and listens. -/
def mainStartup (showVersion : Bool) (parsedScheme : Option String)
    (scrapeURI : String) : StartupOutcome :=
  if showVersion then StartupOutcome.exitVersion
  else
    match parsedScheme with
    | none => StartupOutcome.exitConfigError
    | some scheme =>
      if supportedSchema scheme then StartupOutcome.serve scrapeURI
      else StartupOutcome.exitConfigError

/-- The example status payload of the spec's single-connector scenario. -/
def scenarioStatusJson : Json :=
  Json.obj
    [("name", Json.str "test-changesets"),
     ("connector",
       Json.obj [("state", Json.str "RUNNING"),
                 ("worker_id", Json.str "kafka-connect:8083")]),
     ("tasks",
       Json.arr [Json.obj [("state", Json.str "running"),
                           ("id", Json.num 0),
                           ("worker_id", Json.str "kafka-connect:8083")]])]

/-- The upstream of the spec's single-connector scenario. -/
def scenarioUpstream : Upstream :=
  { listing := Fetch.response (Body.json (Json.arr [Json.str "test-changesets"])) true,
    statusOf := fun name =>
      if name == "test-changesets" then
        Fetch.response (Body.json scenarioStatusJson) true
      else
        Fetch.noResponse }

/-- The connector names decoded from the listing during a cycle (empty on
any listing failure); the fan-out loop runs over exactly this list. -/
def listingNames (u : Upstream) : List String :=
  match u.listing with
  | Fetch.response (Body.json j) _ => (decodeConnectors j).getD []
  | _ => []

/-- An upstream whose listing response body cannot be read (and whose
close succeeds). -/
def unreachableUpstream : Upstream :=
  { listing := Fetch.response Body.unreadable true,
    statusOf := fun _ => Fetch.noResponse }

/-- An upstream listing two connectors where the status fetch succeeds for
`test-changesets` and gets no response for `broken`. -/
def twoConnectorUpstream : Upstream :=
  { listing := Fetch.response
      (Body.json (Json.arr [Json.str "test-changesets", Json.str "broken"])) true,
    statusOf := fun name =>
      if name == "test-changesets" then
        Fetch.response (Body.json scenarioStatusJson) true
      else
        Fetch.noResponse }

/-- Sanity check: the spec's single-connector scenario produces exactly
the four expected samples. -/
theorem scenario_samples :
    (collect { up := 0, connectorsCount := 0 } scenarioUpstream).1 =
      [Sample.up 1,
       Sample.connectorsCount 1,
       Sample.connectorRunning 1 "test-changesets" "running" "kafka-connect:8083",
       Sample.taskState 1 "test-changesets" "running" "kafka-connect:8083" "0"] := by
  decide

/-- Fan-out over the empty listing emits nothing. -/
theorem collectConnectors_nil (u : Upstream) : collectConnectors u [] = [] := rfl

/-- Fan-out over a cons: the head connector's samples first, in listing
order. -/
theorem collectConnectors_cons (u : Upstream) (c : String) (rest : List String) :
    collectConnectors u (c :: rest) = collectOne u c ++ collectConnectors u rest := by
  simp [collectConnectors]

/-- A connector whose status fetch fails contributes no samples. -/
theorem collectOne_eq_nil_of_fails {u : Upstream} {c : String}
    (h : statusFetchFails u c = true) : collectOne u c = [] := by
  cases hf : u.statusOf c with
  | noResponse => simp [collectOne, hf]
  | response body closeOk =>
    cases body with
    | unreadable => simp [collectOne, hf]
    | invalidJson => simp [collectOne, hf]
    | json j =>
      cases hd : decodeStatus j with
      | none => simp [collectOne, hf, hd]
      | some st => simp [statusFetchFails, hf, hd] at h

/-- A connector whose status fetch succeeds contributes the samples of its
decoded status. -/
theorem collectOne_eq_statusSamples_of_ok {u : Upstream} {c : String}
    (h : statusFetchFails u c = false) :
    ∃ st : Status, decodedStatus u c = some st ∧ collectOne u c = statusSamples st := by
  cases hf : u.statusOf c with
  | noResponse => simp [statusFetchFails, hf] at h
  | response body closeOk =>
    cases body with
    | unreadable => simp [statusFetchFails, hf] at h
    | invalidJson => simp [statusFetchFails, hf] at h
    | json j =>
      cases hd : decodeStatus j with
      | none => simp [statusFetchFails, hf, hd] at h
      | some st =>
        exact ⟨st, by simp [decodedStatus, hf, hd], by simp [collectOne, hf, hd]⟩

/-- The samples of a decoded status are connector-running and task-state
samples only; neither gauge is ever re-emitted by the fan-out. -/
theorem statusSamples_no_gauge (st : Status) :
    ∀ s ∈ statusSamples st, isUpSample s = false ∧ isCountSample s = false := by
  intro s hs
  unfold statusSamples at hs
  rcases List.mem_cons.mp hs with h | h
  · subst h; exact ⟨rfl, rfl⟩
  · rcases List.mem_map.mp h with ⟨t, _, ht⟩
    subst ht; exact ⟨rfl, rfl⟩

/-- One fan-out iteration never emits a gauge sample. -/
theorem collectOne_no_gauge (u : Upstream) (c : String) :
    ∀ s ∈ collectOne u c, isUpSample s = false ∧ isCountSample s = false := by
  intro s hs
  unfold collectOne at hs
  split at hs
  · simp at hs
  · simp at hs
  · simp at hs
  · split at hs
    · simp at hs
    · exact statusSamples_no_gauge _ s hs

/-- The whole fan-out loop never emits a gauge sample. -/
theorem collectConnectors_no_gauge (u : Upstream) (names : List String) :
    ∀ s ∈ collectConnectors u names, isUpSample s = false ∧ isCountSample s = false := by
  intro s hs
  induction names with
  | nil => simp [collectConnectors] at hs
  | cons c rest ih =>
    rw [collectConnectors_cons] at hs
    rcases List.mem_append.mp hs with h | h
    · exact collectOne_no_gauge u c s h
    · exact ih h

/-- The fan-out contains no `up` samples (counted form). -/
theorem collectConnectors_countP_up (u : Upstream) (names : List String) :
    (collectConnectors u names).countP isUpSample = 0 := by
  rw [List.countP_eq_zero]
  intro s hs
  simp [(collectConnectors_no_gauge u names s hs).1]

/-- The fan-out contains no `connectors_count` samples (counted form). -/
theorem collectConnectors_countP_count (u : Upstream) (names : List String) :
    (collectConnectors u names).countP isCountSample = 0 := by
  rw [List.countP_eq_zero]
  intro s hs
  simp [(collectConnectors_no_gauge u names s hs).2]

/-- Dropping a failing connector from the listing does not change the
fan-out's samples. -/
theorem collectConnectors_filter_failing (u : Upstream) (c : String)
    (h : statusFetchFails u c = true) (names : List String) :
    collectConnectors u (names.filter (fun d => !(d == c))) = collectConnectors u names := by
  induction names with
  | nil => rfl
  | cons d rest ih =>
    rw [List.filter_cons]
    by_cases hd : d = c
    · subst hd
      rw [if_neg (by simp)]
      rw [ih, collectConnectors_cons, collectOne_eq_nil_of_fails h, List.nil_append]
    · have hb : (!(d == c)) = true := by simp [hd]
      rw [if_pos hb, collectConnectors_cons, collectConnectors_cons, ih]

/-- A succeeding connector contributes one sample plus one per task. -/
theorem collectOne_length_of_ok {u : Upstream} {c : String}
    (h : statusFetchFails u c = false) :
    (collectOne u c).length = 1 + taskCount u c := by
  obtain ⟨st, hst, hco⟩ := collectOne_eq_statusSamples_of_ok h
  rw [hco]
  unfold taskCount
  rw [hst]
  simp [statusSamples]
  omega

/-- When every status fetch succeeds, the fan-out emits one sample per
connector plus one per task. -/
theorem collectConnectors_length_of_all_ok (u : Upstream) (names : List String)
    (h : ∀ d ∈ names, statusFetchFails u d = false) :
    (collectConnectors u names).length = names.length + totalTaskCount u names := by
  induction names with
  | nil => rfl
  | cons c rest ih =>
    rw [collectConnectors_cons, List.length_append,
        collectOne_length_of_ok (h c (List.mem_cons_self c rest)),
        ih (fun d hd => h d (List.mem_cons_of_mem c hd))]
    unfold totalTaskCount
    simp [List.map_cons, List.sum_cons]
    omega

/-- The sample list of a cycle whose listing step fails: the `up = 0`
sample, then the deferred close handler's re-emission when closing the
listing body fails. -/
theorem collect_samples_of_listing_fails (g : Gauges) (u : Upstream)
    (h : listingFails u.listing = true) :
    (collect g u).1 = Sample.up 0 :: listingCloseTail u.listing 0 := by
  cases hl : u.listing with
  | noResponse => simp [collect, hl, listingCloseTail]
  | response body closeOk =>
    cases body with
    | unreadable => cases closeOk <;> simp [collect, hl, listingCloseTail]
    | invalidJson => cases closeOk <;> simp [collect, hl, listingCloseTail]
    | json j =>
      cases hd : decodeConnectors j with
      | none => cases closeOk <;> simp [collect, hl, hd, listingCloseTail]
      | some names => simp [listingFails, hl, hd] at h

/-- The sample list of a cycle whose listing step succeeds: `up = 1`, the
connector count, the fan-out samples, and the deferred close handler's
re-emission (now of `up = 1`) when closing the listing body fails. -/
theorem collect_samples_of_listing_ok (g : Gauges) (u : Upstream) (j : Json)
    (closeOk : Bool) (names : List String)
    (hl : u.listing = Fetch.response (Body.json j) closeOk)
    (hd : decodeConnectors j = some names) :
    (collect g u).1 = Sample.up 1 :: Sample.connectorsCount names.length ::
      (collectConnectors u names ++ listingCloseTail u.listing 1) := by
  cases closeOk <;> simp [collect, hl, hd, listingCloseTail]

/-- The samples of a cycle do not depend on the gauge values left behind
by earlier cycles: the collector overwrites both gauges before sending
them. -/
theorem collect_samples_state_independent (g g' : Gauges) (u : Upstream) :
    (collect g u).1 = (collect g' u).1 := by
  cases hl : u.listing with
  | noResponse => simp [collect, hl]
  | response body closeOk =>
    cases body with
    | unreadable => simp [collect, hl]
    | invalidJson => simp [collect, hl]
    | json j =>
      cases hd : decodeConnectors j with
      | none => simp [collect, hl, hd]
      | some names => simp [collect, hl, hd]

/-- Every sample of a cycle is a gauge sample or comes from the fan-out
over the decoded listing. -/
theorem mem_collect_cases (g : Gauges) (u : Upstream) (s : Sample)
    (h : s ∈ (collect g u).1) :
    isUpSample s = true ∨ isCountSample s = true ∨
      s ∈ collectConnectors u (listingNames u) := by
  cases hl : u.listing with
  | noResponse =>
    rw [show (collect g u).1 = [Sample.up 0] by simp [collect, hl]] at h
    simp at h
    subst h; left; rfl
  | response body closeOk =>
    cases body with
    | unreadable =>
      rw [show (collect g u).1 =
        Sample.up 0 :: (if closeOk then [] else [Sample.up 0]) by simp [collect, hl]] at h
      rcases List.mem_cons.mp h with h | h
      · subst h; left; rfl
      · cases closeOk <;> simp at h
        subst h; left; rfl
    | invalidJson =>
      rw [show (collect g u).1 =
        Sample.up 0 :: (if closeOk then [] else [Sample.up 0]) by simp [collect, hl]] at h
      rcases List.mem_cons.mp h with h | h
      · subst h; left; rfl
      · cases closeOk <;> simp at h
        subst h; left; rfl
    | json j =>
      cases hd : decodeConnectors j with
      | none =>
        rw [show (collect g u).1 =
          Sample.up 0 :: (if closeOk then [] else [Sample.up 0]) by simp [collect, hl, hd]] at h
        rcases List.mem_cons.mp h with h | h
        · subst h; left; rfl
        · cases closeOk <;> simp at h
          subst h; left; rfl
      | some names =>
        rw [collect_samples_of_listing_ok g u j closeOk names hl hd] at h
        rcases List.mem_cons.mp h with h | h
        · subst h; left; rfl
        rcases List.mem_cons.mp h with h | h
        · subst h; right; left; rfl
        rcases List.mem_append.mp h with h | h
        · right; right
          have : listingNames u = names := by simp [listingNames, hl, hd]
          rw [this]; exact h
        · cases closeOk <;> simp [listingCloseTail, hl] at h
          subst h; left; rfl

/-- Every task-state sample of a decoded status carries the code computed
by `taskStateCode` from the task's state string, together with that
string's lower-cased form and the task's worker id. -/
theorem taskState_mem_statusSamples {st : Status} {v : Nat} {cn stl w i : String}
    (h : Sample.taskState v cn stl w i ∈ statusSamples st) :
    ∃ t : ConnectorTask, v = taskStateCode t.state ∧ stl = lowerString t.state ∧
      w = t.workerId := by
  unfold statusSamples at h
  rcases List.mem_cons.mp h with h | h
  · simp at h
  · rcases List.mem_map.mp h with ⟨t, _, ht⟩
    refine ⟨t, ?_, ?_, ?_⟩ <;> injection ht <;> simp_all

/-- Task-sample inversion through one fan-out iteration. -/
theorem taskState_mem_collectOne {u : Upstream} {c : String} {v : Nat}
    {cn stl w i : String}
    (h : Sample.taskState v cn stl w i ∈ collectOne u c) :
    ∃ t : ConnectorTask, v = taskStateCode t.state ∧ stl = lowerString t.state ∧
      w = t.workerId := by
  unfold collectOne at h
  split at h
  · simp at h
  · simp at h
  · simp at h
  · split at h
    · simp at h
    · exact taskState_mem_statusSamples h

/-- Task-sample inversion through the whole fan-out loop. -/
theorem taskState_mem_collectConnectors {u : Upstream} {names : List String}
    {v : Nat} {cn stl w i : String}
    (h : Sample.taskState v cn stl w i ∈ collectConnectors u names) :
    ∃ t : ConnectorTask, v = taskStateCode t.state ∧ stl = lowerString t.state ∧
      w = t.workerId := by
  induction names with
  | nil => simp [collectConnectors] at h
  | cons c rest ih =>
    rw [collectConnectors_cons] at h
    rcases List.mem_append.mp h with h | h
    · exact taskState_mem_collectOne h
    · exact ih h

/-- C1 (counterexample): a cycle whose listing body does not decode and
whose listing body close fails emits the `up = 0` sample twice, not
exactly once. -/
theorem listing_decode_failure_close_error_emits_two_samples :
    listingFails (Fetch.response Body.invalidJson false) = true ∧
    (collect { up := 0, connectorsCount := 0 }
        { listing := Fetch.response Body.invalidJson false,
          statusOf := fun _ => Fetch.noResponse }).1 = [Sample.up 0, Sample.up 0] ∧
    ¬ (collect { up := 0, connectorsCount := 0 }
        { listing := Fetch.response Body.invalidJson false,
          statusOf := fun _ => Fetch.noResponse }).1.length = 1 := by
  refine ⟨rfl, rfl, by decide⟩

/-- C1 (amended): in every cycle whose top-level listing step fails
(transport error, unreadable body, or a body that does not unmarshal into
a string slice), every emitted sample is the `up` gauge with value 0; the
cycle emits exactly that one sample, except that when a listing response
was obtained and closing its body fails, the deferred close handler sends
the `up = 0` sample a second time. -/
theorem listing_failure_emits_only_up_zero (g : Gauges) (u : Upstream)
    (h : listingFails u.listing = true) :
    (collect g u).1 = Sample.up 0 :: listingCloseTail u.listing 0 ∧
    (∀ s ∈ (collect g u).1, s = Sample.up 0) ∧
    ((∀ b : Body, u.listing ≠ Fetch.response b false) → (collect g u).1 = [Sample.up 0]) := by
  have hc := collect_samples_of_listing_fails g u h
  refine ⟨hc, ?_, ?_⟩
  · intro s hs
    rw [hc] at hs
    rcases List.mem_cons.mp hs with hs | hs
    · exact hs
    · unfold listingCloseTail at hs
      split at hs
      · simpa using hs
      · simp at hs
  · intro hnb
    rw [hc]
    unfold listingCloseTail
    split
    · rename_i heq
      exact absurd heq (hnb _)
    · rfl

/-- C1 (witness): instance of the amended claim at an upstream whose
listing body cannot be read and closes successfully. -/
theorem listing_failure_emits_only_up_zero_witness :
    listingFails unreachableUpstream.listing = true ∧
    ((collect { up := 3, connectorsCount := 7 } unreachableUpstream).1 =
        Sample.up 0 :: listingCloseTail unreachableUpstream.listing 0 ∧
      (∀ s ∈ (collect { up := 3, connectorsCount := 7 } unreachableUpstream).1,
        s = Sample.up 0) ∧
      ((∀ b : Body, unreachableUpstream.listing ≠ Fetch.response b false) →
        (collect { up := 3, connectorsCount := 7 } unreachableUpstream).1 =
          [Sample.up 0])) :=
  ⟨by decide, listing_failure_emits_only_up_zero _ _ (by decide)⟩

/-- C2: when the listing succeeds with names `names` and exactly one
connector `c` among them has a failing status fetch, the cycle still emits
`up = 1` and `connectors_count = names.length`, the failing connector
contributes zero samples (the fan-out equals the fan-out over the listing
with `c` removed), and the fan-out portion never contains an `up` sample,
so the per-connector failure cannot re-emit or override the `up` gauge. -/
theorem single_status_failure_isolated (g : Gauges) (u : Upstream) (j : Json)
    (closeOk : Bool) (names : List String) (c : String)
    (hl : u.listing = Fetch.response (Body.json j) closeOk)
    (hd : decodeConnectors j = some names)
    (_hmem : c ∈ names)
    (hfail : statusFetchFails u c = true)
    (_hrest : ∀ d ∈ names, d ≠ c → statusFetchFails u d = false) :
    (collect g u).1 = Sample.up 1 :: Sample.connectorsCount names.length ::
      (collectConnectors u (names.filter (fun d => !(d == c))) ++
        listingCloseTail u.listing 1) ∧
    (∀ s ∈ collectConnectors u names, isUpSample s = false) := by
  refine ⟨?_, fun s hs => (collectConnectors_no_gauge u names s hs).1⟩
  rw [collect_samples_of_listing_ok g u j closeOk names hl hd,
      collectConnectors_filter_failing u c hfail names]

/-- C2 (witness): instance at a two-connector listing where only `broken`
fails. -/
theorem single_status_failure_isolated_witness :
    twoConnectorUpstream.listing = Fetch.response
      (Body.json (Json.arr [Json.str "test-changesets", Json.str "broken"])) true ∧
    decodeConnectors (Json.arr [Json.str "test-changesets", Json.str "broken"]) =
      some ["test-changesets", "broken"] ∧
    "broken" ∈ ["test-changesets", "broken"] ∧
    statusFetchFails twoConnectorUpstream "broken" = true ∧
    (∀ d ∈ ["test-changesets", "broken"], d ≠ "broken" →
      statusFetchFails twoConnectorUpstream d = false) ∧
    ((collect { up := 0, connectorsCount := 0 } twoConnectorUpstream).1 =
        Sample.up 1 :: Sample.connectorsCount (["test-changesets", "broken"]).length ::
          (collectConnectors twoConnectorUpstream
              ((["test-changesets", "broken"]).filter (fun d => !(d == "broken"))) ++
            listingCloseTail twoConnectorUpstream.listing 1) ∧
      (∀ s ∈ collectConnectors twoConnectorUpstream ["test-changesets", "broken"],
        isUpSample s = false)) :=
  ⟨rfl, by decide, by decide, by decide, by decide,
    single_status_failure_isolated _ _ _ _ _ _ rfl (by decide) (by decide)
      (by decide) (by decide)⟩

/-- C3 (counterexample): a successfully decoded empty listing whose body
close fails emits `up = 1` twice and three samples, not `2 + N + T = 2`. -/
theorem listing_close_error_extra_up_sample :
    decodeConnectors (Json.arr []) = some [] ∧
    (collect { up := 0, connectorsCount := 0 }
        { listing := Fetch.response (Body.json (Json.arr [])) false,
          statusOf := fun _ => Fetch.noResponse }).1 =
      [Sample.up 1, Sample.connectorsCount 0, Sample.up 1] ∧
    (collect { up := 0, connectorsCount := 0 }
        { listing := Fetch.response (Body.json (Json.arr [])) false,
          statusOf := fun _ => Fetch.noResponse }).1.countP isUpSample = 2 ∧
    ¬ (collect { up := 0, connectorsCount := 0 }
        { listing := Fetch.response (Body.json (Json.arr [])) false,
          statusOf := fun _ => Fetch.noResponse }).1.length = 2 + 0 + 0 := by
  refine ⟨rfl, rfl, rfl, by decide⟩

/-- C3 (amended): once the listing decodes into `names`, the cycle is
`up = 1`, `connectors_count = names.length`, then the fan-out samples,
then — only when closing the listing body fails — one extra `up = 1`
sample appended by the deferred close handler.  Provided that close
succeeds, each gauge sample occurs exactly once, and if additionally every
status fetch succeeds the cycle has exactly `2 + N + T` samples, where `N`
is the listing length and `T` the total task count. -/
theorem listing_success_gauges_and_sample_count (g : Gauges) (u : Upstream)
    (j : Json) (closeOk : Bool) (names : List String)
    (hl : u.listing = Fetch.response (Body.json j) closeOk)
    (hd : decodeConnectors j = some names) :
    (collect g u).1 = Sample.up 1 :: Sample.connectorsCount names.length ::
      (collectConnectors u names ++ listingCloseTail u.listing 1) ∧
    (closeOk = true → (collect g u).1.countP isUpSample = 1 ∧
      (collect g u).1.countP isCountSample = 1) ∧
    (closeOk = true → (∀ d ∈ names, statusFetchFails u d = false) →
      (collect g u).1.length = 2 + names.length + totalTaskCount u names) := by
  have hc := collect_samples_of_listing_ok g u j closeOk names hl hd
  have htail : closeOk = true → listingCloseTail u.listing 1 = [] := by
    intro hco; subst hco; simp [listingCloseTail, hl]
  refine ⟨hc, ?_, ?_⟩
  · intro hco
    rw [hc, htail hco]
    constructor
    · simp [List.countP_cons, List.countP_append, isUpSample, isCountSample,
        collectConnectors_countP_up]
    · simp [List.countP_cons, List.countP_append, isUpSample, isCountSample,
        collectConnectors_countP_count]
  · intro hco hall
    rw [hc, htail hco]
    simp [collectConnectors_length_of_all_ok u names hall]
    omega

/-- C3 (witness): instance of the amended claim at the single-connector
scenario upstream, whose listing body close succeeds. -/
theorem listing_success_gauges_and_sample_count_witness :
    scenarioUpstream.listing =
      Fetch.response (Body.json (Json.arr [Json.str "test-changesets"])) true ∧
    decodeConnectors (Json.arr [Json.str "test-changesets"]) =
      some ["test-changesets"] ∧
    ((collect { up := 0, connectorsCount := 0 } scenarioUpstream).1 =
        Sample.up 1 :: Sample.connectorsCount (["test-changesets"]).length ::
          (collectConnectors scenarioUpstream ["test-changesets"] ++
            listingCloseTail scenarioUpstream.listing 1) ∧
      (true = true → (collect { up := 0, connectorsCount := 0 } scenarioUpstream).1.countP
          isUpSample = 1 ∧
        (collect { up := 0, connectorsCount := 0 } scenarioUpstream).1.countP
          isCountSample = 1) ∧
      (true = true → (∀ d ∈ ["test-changesets"],
          statusFetchFails scenarioUpstream d = false) →
        (collect { up := 0, connectorsCount := 0 } scenarioUpstream).1.length =
          2 + (["test-changesets"]).length +
            totalTaskCount scenarioUpstream ["test-changesets"])) :=
  ⟨rfl, by decide,
    listing_success_gauges_and_sample_count _ _ _ _ _ rfl (by decide)⟩

/-- C4: the task-state-to-code mapping is total and case-insensitive —
every string whose ASCII lower-casing is `running` maps to 1, `unassigned`
to 2, `paused` to 3, and every other string (including `failed` and the
empty string) to 0 — and every task-state sample a cycle emits carries
exactly the code of its task's state string, with the lower-cased state as
its state label. -/
theorem task_state_code_total_case_insensitive :
    (∀ s : String, lowerString s = "running" → taskStateCode s = 1) ∧
    (∀ s : String, lowerString s = "unassigned" → taskStateCode s = 2) ∧
    (∀ s : String, lowerString s = "paused" → taskStateCode s = 3) ∧
    (∀ s : String, lowerString s ≠ "running" → lowerString s ≠ "unassigned" →
      lowerString s ≠ "paused" → taskStateCode s = 0) ∧
    (∀ (g : Gauges) (u : Upstream) (v : Nat) (cn stl w i : String),
      Sample.taskState v cn stl w i ∈ (collect g u).1 →
      ∃ t : ConnectorTask, v = taskStateCode t.state ∧ stl = lowerString t.state ∧
        w = t.workerId) := by
  refine ⟨?_, ?_, ?_, ?_, ?_⟩
  · intro s h; simp [taskStateCode, h]
  · intro s h; simp [taskStateCode, h]
  · intro s h; simp [taskStateCode, h]
  · intro s h1 h2 h3
    unfold taskStateCode
    split
    · exact absurd (by assumption) h1
    · exact absurd (by assumption) h2
    · exact absurd (by assumption) h3
    · rfl
  · intro g u v cn stl w i h
    rcases mem_collect_cases g u _ h with hup | hcount | hmem
    · simp [isUpSample] at hup
    · simp [isCountSample] at hcount
    · exact taskState_mem_collectConnectors hmem

/-- C4 (witness): the mapping evaluated at the spec's example inputs. -/
theorem task_state_code_total_case_insensitive_witness :
    taskStateCode "RUNNING" = 1 ∧ taskStateCode "Running" = 1 ∧
    taskStateCode "Unassigned" = 2 ∧ taskStateCode "PAUSED" = 3 ∧
    taskStateCode "failed" = 0 ∧ taskStateCode "" = 0 ∧ taskStateCode "foo" = 0 :=
  ⟨task_state_code_total_case_insensitive.1 "RUNNING" (by decide),
   task_state_code_total_case_insensitive.1 "Running" (by decide),
   task_state_code_total_case_insensitive.2.1 "Unassigned" (by decide),
   task_state_code_total_case_insensitive.2.2.1 "PAUSED" (by decide),
   task_state_code_total_case_insensitive.2.2.2.1 "failed" (by decide) (by decide)
     (by decide),
   task_state_code_total_case_insensitive.2.2.2.1 "" (by decide) (by decide)
     (by decide),
   task_state_code_total_case_insensitive.2.2.2.1 "foo" (by decide) (by decide)
     (by decide)⟩

/-- C5: for every successfully decoded connector status, the fan-out
iteration emits exactly one connector-running sample, first, with value 1
exactly when the lower-cased connector state equals `running` (0 for any
other string), labelled with the decoded connector name, the lower-cased
state string, and the worker id, followed by the task samples. -/
theorem connector_running_sample_shape (u : Upstream) (name : String) (j : Json)
    (closeOk : Bool) (st : Status)
    (hf : u.statusOf name = Fetch.response (Body.json j) closeOk)
    (hd : decodeStatus j = some st) :
    collectOne u name =
      Sample.connectorRunning
          (if lowerString st.connector.state = "running" then 1 else 0)
          st.name (lowerString st.connector.state) st.connector.workerId
        :: st.tasks.map (fun t =>
            Sample.taskState (taskStateCode t.state) st.name (lowerString t.state)
              t.workerId (toString t.id)) ∧
    (collectOne u name).countP isConnectorRunningSample = 1 := by
  have hco : collectOne u name = statusSamples st := by
    simp [collectOne, hf, hd]
  constructor
  · rw [hco]
    unfold statusSamples connectorRunningValue
    by_cases hr : lowerString st.connector.state = "running"
    · simp [hr]
    · simp [hr]
  · rw [hco]
    unfold statusSamples
    rw [List.countP_cons]
    have hz : (st.tasks.map (fun t =>
        Sample.taskState (taskStateCode t.state) st.name (lowerString t.state)
          t.workerId (toString t.id))).countP isConnectorRunningSample = 0 := by
      rw [List.countP_eq_zero]
      intro s hs
      rcases List.mem_map.mp hs with ⟨t, _, ht⟩
      subst ht
      simp [isConnectorRunningSample]
    rw [hz]
    simp [isConnectorRunningSample]

/-- C5 (witness): instance at the scenario's decoded status. -/
theorem connector_running_sample_shape_witness :
    scenarioUpstream.statusOf "test-changesets" =
      Fetch.response (Body.json scenarioStatusJson) true ∧
    decodeStatus scenarioStatusJson =
      some { name := "test-changesets",
             connector := { state := "RUNNING", workerId := "kafka-connect:8083" },
             tasks := [{ state := "running", id := 0,
                         workerId := "kafka-connect:8083" }] } ∧
    (collectOne scenarioUpstream "test-changesets" =
      Sample.connectorRunning
          (if lowerString "RUNNING" = "running" then 1 else 0)
          "test-changesets" (lowerString "RUNNING") "kafka-connect:8083"
        :: [Sample.taskState (taskStateCode "running") "test-changesets"
              (lowerString "running") "kafka-connect:8083" (toString (0 : Int))] ∧
    (collectOne scenarioUpstream "test-changesets").countP
        isConnectorRunningSample = 1) := by
  refine ⟨rfl, by decide, ?_⟩
  exact connector_running_sample_shape scenarioUpstream "test-changesets"
    scenarioStatusJson true
    { name := "test-changesets",
      connector := { state := "RUNNING", workerId := "kafka-connect:8083" },
      tasks := [{ state := "running", id := 0, workerId := "kafka-connect:8083" }] }
    rfl (by decide)

/-- C6 (counterexample): the empty JSON object deviates from the expected
status shape (it has none of the fields `name`, `connector`, `tasks`), yet
Go's lenient unmarshalling decodes it to the zero-valued status, and the
connector is not skipped: it contributes one connector-running sample with
empty labels instead of zero samples. -/
theorem empty_object_status_not_skipped :
    decodeStatus (Json.obj []) = some zeroStatus ∧
    collectOne
      { listing := Fetch.noResponse,
        statusOf := fun _ => Fetch.response (Body.json (Json.obj [])) true } "x" =
      [Sample.connectorRunning 0 "" "" ""] ∧
    statusFetchFails
      { listing := Fetch.noResponse,
        statusOf := fun _ => Fetch.response (Body.json (Json.obj [])) true } "x" =
      false := by
  refine ⟨by decide, by decide, by decide⟩

/-- C6 (amended): a per-connector status response is treated as a decode
failure — skipping the connector with zero samples — exactly when the
fetch fails, the body is unreadable or not valid JSON, or unmarshalling
into the status structure hits a type mismatch under Go's lenient
semantics; bodies accepted by that unmarshalling (JSON objects possibly
missing fields or carrying unknown ones, and JSON null) are not decode
failures and do emit samples. -/
theorem status_skipped_iff_fetch_fails (u : Upstream) (name : String) :
    (collectOne u name = [] ↔ statusFetchFails u name = true) ∧
    decodeStatus Json.null = some zeroStatus ∧
    decodeStatus (Json.obj [("unknown", Json.num 1)]) = some zeroStatus ∧
    decodeStatus (Json.str "x") = none ∧
    decodeStatus (Json.obj [("tasks", Json.str "x")]) = none := by
  refine ⟨⟨?_, collectOne_eq_nil_of_fails⟩, by decide, by decide, by decide, by decide⟩
  intro h
  by_contra hfail
  have hf : statusFetchFails u name = false := by
    cases hfb : statusFetchFails u name
    · rfl
    · exact absurd hfb hfail
  obtain ⟨st, _, hco⟩ := collectOne_eq_statusSamples_of_ok hf
  rw [hco] at h
  simp [statusSamples] at h

/-- C6 (witness): instance of the skip-iff-failure equivalence at the
scenario upstream and connector. -/
theorem status_skipped_iff_fetch_fails_witness :
    ((collectOne scenarioUpstream "test-changesets" = [] ↔
        statusFetchFails scenarioUpstream "test-changesets" = true) ∧
      decodeStatus Json.null = some zeroStatus ∧
      decodeStatus (Json.obj [("unknown", Json.num 1)]) = some zeroStatus ∧
      decodeStatus (Json.str "x") = none ∧
      decodeStatus (Json.obj [("tasks", Json.str "x")]) = none) :=
  status_skipped_iff_fetch_fails scenarioUpstream "test-changesets"

/-- C7 (code evaluated at the failing input): a per-connector status
response whose body read fails — and likewise one whose body does not
decode — is an obtained body for which the fan-out loop never reaches the
`Body.Close()` call at line 162: the `continue` statements at lines 122
and 128 leave the iteration without releasing the body.  Only the listing
response body is closed on every path (by the deferred handler). -/
theorem status_body_not_closed_on_skip :
    bodyObtained (Fetch.response Body.unreadable true) = true ∧
    statusBodyCloseCalled (Fetch.response Body.unreadable true) = false ∧
    bodyObtained (Fetch.response Body.invalidJson true) = true ∧
    statusBodyCloseCalled (Fetch.response Body.invalidJson true) = false ∧
    bodyObtained (Fetch.response (Body.json (Json.str "x")) true) = true ∧
    statusBodyCloseCalled (Fetch.response (Body.json (Json.str "x")) true) = false ∧
    listingBodyCloseCalled (Fetch.response Body.unreadable true) = true := by
  refine ⟨rfl, rfl, rfl, rfl, rfl, by decide, rfl⟩

/-- C8: two consecutive collection cycles against an unchanged upstream
produce identical sample lists, because the samples of a cycle are a
function of the upstream alone — the gauge values carried over from the
previous cycle are overwritten before being sent. -/
theorem consecutive_cycles_equal_samples (g : Gauges) (u : Upstream) :
    (collect (collect g u).2 u).1 = (collect g u).1 ∧
    (∀ g' : Gauges, (collect g' u).1 = (collect g u).1) :=
  ⟨collect_samples_state_independent (collect g u).2 g u,
   fun g' => collect_samples_state_independent g' g u⟩

/-- C8 (witness): instance at the scenario upstream, starting from a
gauge state left over by an earlier failed cycle. -/
theorem consecutive_cycles_equal_samples_witness :
    (collect (collect { up := 0, connectorsCount := 9 } scenarioUpstream).2
        scenarioUpstream).1 =
      (collect { up := 0, connectorsCount := 9 } scenarioUpstream).1 ∧
    (∀ g' : Gauges, (collect g' scenarioUpstream).1 =
      (collect { up := 0, connectorsCount := 9 } scenarioUpstream).1) :=
  consecutive_cycles_equal_samples { up := 0, connectorsCount := 9 } scenarioUpstream

/-- C9: startup scheme validation — a base URI that fails to parse, or
whose parsed scheme is not in `supportedSchema` (only `http` and `https`
are), makes `main` exit with a configuration error before any serving
starts; the process serves exactly when the scheme is `http` or `https`,
and the per-cycle collector (`collect`) takes no scheme input at all, so
the check happens only at startup. -/
theorem startup_rejects_unsupported_scheme :
    (∀ uri : String, mainStartup false none uri = StartupOutcome.exitConfigError) ∧
    (∀ scheme uri : String, supportedSchema scheme = false →
      mainStartup false (some scheme) uri = StartupOutcome.exitConfigError) ∧
    (∀ scheme uri : String,
      mainStartup false (some scheme) uri = StartupOutcome.serve uri ↔
        (scheme = "http" ∨ scheme = "https")) := by
  refine ⟨fun uri => rfl, ?_, ?_⟩
  · intro scheme uri h
    simp [mainStartup, h]
  · intro scheme uri
    by_cases h : supportedSchema scheme = true
    · have : scheme = "http" ∨ scheme = "https" := by
        simpa [supportedSchema] using h
      simp [mainStartup, h, this]
    · have hb : supportedSchema scheme = false := by
        cases hx : supportedSchema scheme
        · rfl
        · exact absurd hx h
      have : ¬ (scheme = "http" ∨ scheme = "https") := by
        intro hor
        rcases hor with h' | h' <;> subst h' <;> simp [supportedSchema] at hb
      simp [mainStartup, hb, this]

/-- C9 (witness): an `ftp` scheme is rejected at startup. -/
theorem startup_rejects_unsupported_scheme_witness :
    supportedSchema "ftp" = false ∧
    mainStartup false (some "ftp") "ftp://127.0.0.1:8080" =
      StartupOutcome.exitConfigError ∧
    mainStartup false none "://bad" = StartupOutcome.exitConfigError :=
  ⟨by decide,
   startup_rejects_unsupported_scheme.2.1 "ftp" "ftp://127.0.0.1:8080" (by decide),
   startup_rejects_unsupported_scheme.1 "://bad"⟩

/-- C10: `Exporter.Describe` sends only the descriptor of the `up` gauge;
the `connectors_count` gauge's descriptor and the two per-connector
const-metric descriptors are never sent on the describe channel. -/
theorem describe_sends_only_up_descriptor :
    exporterDescribe = [MetricDesc.up] ∧
    MetricDesc.connectorsCount ∉ exporterDescribe ∧
    MetricDesc.connectorRunning ∉ exporterDescribe ∧
    MetricDesc.tasksState ∉ exporterDescribe := by
  refine ⟨rfl, by decide, by decide, by decide⟩
